import Mathlib

/-!
Verification of the rsession session-management library.

The Rust source is shallowly embedded: pure functions become Lean
functions, interior mutation (`RefCell<SessionInner>`) becomes explicit
state passing, async store calls become explicit inputs/outputs, and the
process-wide entropy consumed by id generation is passed in as explicit
arguments.  Serde codecs are external to the repository and appear as
function parameters (`ser`/`de`/`parse`).
-/

namespace Rsession

/-! ## Data model (`src/inner/inner.rs`) -/

/-- `SessionStatus` in `inner.rs`: the modification state of a session. -/
inductive SessionStatus where
  | UnChange
  | Change
  | Clear
  | Destroy
  | Expire
deriving DecidableEq, Repr

/-- `HashMap<String, String>` modelled as an association list;
`insertKV` is `HashMap::insert`: it replaces the binding of `k` when present. -/
def insertKV : List (String × String) → String → String → List (String × String)
  | [], k, v => [(k, v)]
  | (k', v') :: rest, k, v =>
      if k' = k then (k, v) :: rest else (k', v') :: insertKV rest k v

/-- `HashMap::remove`: drops the binding of `k`. -/
def eraseKV : List (String × String) → String → List (String × String)
  | [], _ => []
  | (k', v') :: rest, k =>
      if k' = k then rest else (k', v') :: eraseKV rest k

/-- `HashMap::get`. -/
def lookupKV : List (String × String) → String → Option String
  | [], _ => none
  | (k', v') :: rest, k => if k' = k then some v' else lookupKV rest k

/-- `SessionInner` in `inner.rs`: id, serialized data bag, status. -/
structure SessionInner where
  id : String
  data : List (String × String)
  status : SessionStatus
deriving DecidableEq, Repr

/-- `SessionInner::default()`: id is `Uuid::now_v7()` (the entropy is passed
in as `uuid`), empty data, status `UnChange`. -/
def SessionInner.default (uuid : String) : SessionInner :=
  { id := uuid, data := [], status := SessionStatus.UnChange }

/-- `SessionInner::new(id)`: starts from `default()` (whose generated uuid is
immediately overwritten), then sets `id` and status `Change`. -/
def SessionInner.new (id : String) : SessionInner :=
  { SessionInner.default id with id := id, status := SessionStatus.Change }

/-- `SessionInner::get`: looks the key up and deserializes, failures mapped to
`none`.  `de` stands for `serde_json::from_str::<T>(s).ok()`. -/
def SessionInner.get {α : Type} (s : SessionInner) (key : String)
    (de : String → Option α) : Option α :=
  (lookupKV s.data key).bind fun str => de str

/-- `SessionInner::set`: serializes the value (`ser` stands for
`serde_json::to_string`, `none` = `Err`), inserts it and marks the record
`Change`; on a serialization failure it returns the error and leaves the
record untouched.  The pair is (returned `Result`, state after the call). -/
def SessionInner.set {α : Type} (s : SessionInner) (key : String) (value : α)
    (ser : α → Option String) : Except String Unit × SessionInner :=
  match ser value with
  | some str =>
      (Except.ok (), { s with data := insertKV s.data key str,
                              status := SessionStatus.Change })
  | none => (Except.error "serde_json::to_string failed", s)

/-- `SessionInner::remove`: drops the key and marks the record `Change`. -/
def SessionInner.remove (s : SessionInner) (key : String) : SessionInner :=
  { s with data := eraseKV s.data key, status := SessionStatus.Change }

/-- `SessionInner::clear`: wipes the data and sets status `Clear`. -/
def SessionInner.clear (s : SessionInner) : SessionInner :=
  { s with data := [], status := SessionStatus.Clear }

/-- `SessionInner::len`. -/
def SessionInner.len (s : SessionInner) : Nat := s.data.length

/-! ## Public handle (`src/inner/session.rs`)

`Session` is `Rc<RefCell<SessionInner>>`; its methods borrow the cell and
delegate, so they are modelled directly on the `SessionInner` state. -/

/-- `Session::get`: delegates to `SessionInner::get` and turns `None` into
the "get session error" `io::Error`. -/
def Session.get {α : Type} (s : SessionInner) (key : String)
    (de : String → Option α) : Except String α :=
  match SessionInner.get s key de with
  | some v => Except.ok v
  | none => Except.error "get session error"

/-- `Session::set`: borrows mutably and delegates to `SessionInner::set`. -/
def Session.set {α : Type} (s : SessionInner) (key : String) (value : α)
    (ser : α → Option String) : Except String Unit × SessionInner :=
  SessionInner.set s key value ser

/-- `Session::remove`. -/
def Session.remove (s : SessionInner) (key : String) : SessionInner :=
  SessionInner.remove s key

/-- `Session::clear`. -/
def Session.clear (s : SessionInner) : SessionInner :=
  SessionInner.clear s

/-- `Session::len`. -/
def Session.len (s : SessionInner) : Nat := SessionInner.len s

/-- `Session::inner`: clones the current inner state. -/
def Session.inner (s : SessionInner) : SessionInner := s

/-- One call of the public session API during handler execution.  `set`
carries the outcome of serializing the handler's value (`some` = `Ok`). -/
inductive ApiOp where
  | get (key : String)
  | set (key : String) (ser : Option String)
  | remove (key : String)
  | clear
  | len
deriving DecidableEq, Repr

/-- State transition of one public API call on the shared record.
`get` and `len` only borrow; the rest delegate to the `SessionInner` ops. -/
def stepApi (s : SessionInner) : ApiOp → SessionInner
  | ApiOp.get _ => s
  | ApiOp.set key ser => (SessionInner.set s key () (fun _ => ser)).2
  | ApiOp.remove key => SessionInner.remove s key
  | ApiOp.clear => SessionInner.clear s
  | ApiOp.len => s

/-- The record after a sequence of handler-side API calls. -/
def applyApi (s : SessionInner) (ops : List ApiOp) : SessionInner :=
  ops.foldl stepApi s

/-! ## Configuration (`src/inner/builder.rs`) -/

/-- `cookie::SameSite`. -/
inductive SameSite where
  | Strict
  | Lax
  | NoneSite
deriving DecidableEq, Repr

/-- `RefreshStrategy` in `builder.rs`; the `PersistentStorage` duration is a
`time::Duration`, modelled in whole seconds. -/
inductive RefreshStrategy where
  | BrowserLifeCycle
  | PersistentStorage (duration : Int)
deriving DecidableEq, Repr

/-- `RandKey` in `builder.rs`: the id-generation strategy. -/
inductive RandKey where
  | Random (len : Nat)
  | UuidV4
  | UuidV7
  | RandomSha256 (len : Nat)
deriving DecidableEq, Repr

/-- Truncation toward zero of a rational, the semantics of Rust's `%` on
floats (`x % m = x - (x/m).trunc() * m`). -/
def ratTrunc (q : ℚ) : ℤ := if q < 0 then -⌊-q⌋ else ⌊q⌋

/-- Rust `f64` remainder `x % m`, on the mathematical values. -/
def floatRem (x m : ℚ) : ℚ := x - m * (ratTrunc (x / m) : ℚ)

/-- `RandKey::generate` (`builder.rs`).  The entropy drawn from the process
random source is passed in: `r` is the value of `rng.random::<f64>()`
(mathematically a rational in `[0,1)`), `u4`/`u7` the generated uuid strings,
`digest` the sha256 hex digest, and `fls` the `f64` `to_string` rendering.
The `Random`/`RandomSha256` arms compute `r % (10 * len) as f64` and
stringify the resulting float. -/
def RandKey.generate (rk : RandKey) (r : ℚ) (u4 u7 : String)
    (digest : String → String) (fls : ℚ → String) : String :=
  match rk with
  | RandKey.Random len => fls (floatRem r ((10 * len : ℕ) : ℚ))
  | RandKey.UuidV4 => u4
  | RandKey.UuidV7 => u7
  | RandKey.RandomSha256 len => digest (fls (floatRem r ((10 * len : ℕ) : ℚ)))

/-- `SessionBuilder` in `builder.rs`.  `expire_time` is a `time::Duration`
in whole seconds; `secret` is the optional `[u8; 64]`. -/
structure SessionBuilder where
  key : String
  secret : Option (List Nat)
  expire_time : Int
  path : String
  domain : String
  secure : Bool
  http_only : Bool
  max_age : Option Int
  same_site : Option SameSite
  refresh_strategy : RefreshStrategy
  rand_key : RandKey
  auto_expire : Bool
deriving DecidableEq, Repr

/-- `SessionBuilder::default()` (`Duration::days(7)` = 604800 seconds). -/
def SessionBuilder.default : SessionBuilder :=
  { key := "session_key", secret := none, expire_time := 604800,
    path := "/", domain := "", secure := true, http_only := true,
    max_age := none, same_site := none,
    refresh_strategy := RefreshStrategy.BrowserLifeCycle,
    rand_key := RandKey.UuidV7, auto_expire := true }

/-- `SessionBuilder::rand_key` (the field is already named `rand_key`, so the
method is rendered `with_rand_key`): validates the length parameter of the
`Random`/`RandomSha256` strategies with `assert!(len > 64)` then
`assert!(len < 1024)`; the runtime aborts of `assert!` are modelled as
`Except.error` carrying the assert message. -/
def SessionBuilder.with_rand_key (b : SessionBuilder) (rk : RandKey) :
    Except String SessionBuilder :=
  match rk with
  | RandKey.Random len =>
      if 64 < len then
        if len < 1024 then Except.ok { b with rand_key := rk }
        else Except.error "len must be less than 1024"
      else Except.error "len must be greater than 64"
  | RandKey.UuidV4 => Except.ok { b with rand_key := rk }
  | RandKey.UuidV7 => Except.ok { b with rand_key := rk }
  | RandKey.RandomSha256 len =>
      if 64 < len then
        if len < 1024 then Except.ok { b with rand_key := rk }
        else Except.error "len must be less than 1024"
      else Except.error "len must be greater than 64"

/-- `true` on `Except.ok`. -/
def isOkE {ε α : Type} : Except ε α → Bool
  | Except.ok _ => true
  | Except.error _ => false

/-- `Cookie` as configured by `SessionBuilder::build`: name/value plus the
attributes the builder sets.  `expires` is an absolute timestamp in seconds
(`none` = browser lifecycle, i.e. `unset_expires`). -/
structure Cookie where
  name : String
  value : String
  domain : String
  path : String
  http_only : Bool
  secure : Bool
  same_site : Option SameSite
  expires : Option Int
  max_age : Option Int
deriving DecidableEq, Repr

/-- `SessionBuilder::build(id)` (`builder.rs`): sets domain, path, http_only,
secure and same_site unconditionally; `BrowserLifeCycle` leaves expiry unset
while `PersistentStorage(d)` sets the absolute expiry `now + d`; a configured
`max_age` is applied last. -/
def SessionBuilder.build (b : SessionBuilder) (id : String) (now : Int) :
    Cookie :=
  { name := b.key, value := id, domain := b.domain, path := b.path,
    http_only := b.http_only, secure := b.secure, same_site := b.same_site,
    expires :=
      match b.refresh_strategy with
      | RefreshStrategy.BrowserLifeCycle => none
      | RefreshStrategy.PersistentStorage d => some (now + d),
    max_age := b.max_age }

/-- Concrete `f64` rendering used to run `RandKey.generate` on a point. -/
def cexFls : ℚ → String := fun q => if q = (1 : ℚ) / 2 then "0.5" else "?"

/-! ## Storage backends (`src/storage/redis.rs`, `redis_cluster.rs`)

The redis keyspace visible after a successful connection is modelled as a
state of string values plus per-key TTLs.  `get_conn` failures surface as
store errors in the adapters, which receive the whole store result as an
`Except` input, so the per-operation models below describe the behavior of
the issued redis command.  `parse` stands for
`serde_json::from_str::<HashMap<String, String>>` and `ser` for
`serde_json::to_string` of the data map. -/

/-- Pointwise update of a keyspace. -/
def updateF {α : Type} (f : String → Option α) (k : String) (v : Option α) :
    String → Option α :=
  fun j => if j = k then v else f j

/-- The backend keyspace: stored raw values and TTLs, both per key. -/
structure RedisState where
  vals : String → Option String
  ttls : String → Option Int

/-- `RedisSessionStorage::get` (`redis.rs` lines 74-89): reads the key
`format!("{}{}", self.prefix, key)`; a nil reply fails the `String`
conversion and propagates as an error; a parse failure degrades to the empty
map (`unwrap_or`); the returned record is
`SessionInner::new(self.rand_key.generate())` — a freshly generated id
(passed in as `fresh`) with status `Change` — carrying the parsed data. -/
def RedisSessionStorage.get (pfx : String) (vals : String → Option String)
    (fresh key : String) (parse : String → Option (List (String × String))) :
    Except String SessionInner :=
  match vals (pfx ++ key) with
  | none => Except.error "redis nil reply"
  | some raw =>
      Except.ok { SessionInner.new fresh with data := (parse raw).getD [] }

/-- `RedisSessionStorage::set` (`redis.rs` lines 99-107): serializes
`value.data` (the `?` propagates a serialization error) and writes it under
the prefixed key. -/
def RedisSessionStorage.set (pfx : String) (st : RedisState) (key : String)
    (value : SessionInner) (ser : List (String × String) → Option String) :
    Except String RedisState :=
  match ser value.data with
  | some raw =>
      Except.ok { st with vals := updateF st.vals (pfx ++ key) (some raw) }
  | none => Except.error "serde_json::to_string failed"

/-- `RedisSessionStorage::remove` (`redis.rs` lines 116-121): `DEL` on the
prefixed key. -/
def RedisSessionStorage.remove (pfx : String) (st : RedisState)
    (key : String) : RedisState :=
  { st with vals := updateF st.vals (pfx ++ key) none }

/-- `RedisSessionStorage::expire` (`redis.rs` lines 131-139): `EXPIRE` on the
prefixed key with the duration in seconds (`as_seconds_f32() as i64`). -/
def RedisSessionStorage.expire (pfx : String) (st : RedisState)
    (key : String) (secs : Int) : RedisState :=
  { st with ttls := updateF st.ttls (pfx ++ key) (some secs) }

/-- `RedisClusterSessionStorage::get` (`redis_cluster.rs` lines 49-64), a
verbatim repetition of the single-node implementation. -/
def RedisClusterSessionStorage.get (pfx : String)
    (vals : String → Option String) (fresh key : String)
    (parse : String → Option (List (String × String))) :
    Except String SessionInner :=
  match vals (pfx ++ key) with
  | none => Except.error "redis nil reply"
  | some raw =>
      Except.ok { SessionInner.new fresh with data := (parse raw).getD [] }

/-- `RedisClusterSessionStorage::set` (`redis_cluster.rs` lines 74-82). -/
def RedisClusterSessionStorage.set (pfx : String) (st : RedisState)
    (key : String) (value : SessionInner)
    (ser : List (String × String) → Option String) :
    Except String RedisState :=
  match ser value.data with
  | some raw =>
      Except.ok { st with vals := updateF st.vals (pfx ++ key) (some raw) }
  | none => Except.error "serde_json::to_string failed"

/-- `RedisClusterSessionStorage::remove` (`redis_cluster.rs` lines 90-95). -/
def RedisClusterSessionStorage.remove (pfx : String) (st : RedisState)
    (key : String) : RedisState :=
  { st with vals := updateF st.vals (pfx ++ key) none }

/-- `RedisClusterSessionStorage::expire` (`redis_cluster.rs` lines 105-113). -/
def RedisClusterSessionStorage.expire (pfx : String) (st : RedisState)
    (key : String) (secs : Int) : RedisState :=
  { st with ttls := updateF st.ttls (pfx ++ key) (some secs) }

/-- Modelled from the spec: the Redis Sentinel backend.  `storage/mod.rs`
declares `redis_sentinel` behind the `redis-sentinel` feature flag but its
source file is absent; per the spec every backend namespaces each key with
the configurable prefix string and behaves identically to the others. -/
def RedisSentinelSessionStorage.get (pfx : String)
    (vals : String → Option String) (fresh key : String)
    (parse : String → Option (List (String × String))) :
    Except String SessionInner :=
  match vals (pfx ++ key) with
  | none => Except.error "redis nil reply"
  | some raw =>
      Except.ok { SessionInner.new fresh with data := (parse raw).getD [] }

/-- Modelled from the spec: Sentinel `set` (see
`RedisSentinelSessionStorage.get`). -/
def RedisSentinelSessionStorage.set (pfx : String) (st : RedisState)
    (key : String) (value : SessionInner)
    (ser : List (String × String) → Option String) :
    Except String RedisState :=
  match ser value.data with
  | some raw =>
      Except.ok { st with vals := updateF st.vals (pfx ++ key) (some raw) }
  | none => Except.error "serde_json::to_string failed"

/-- Modelled from the spec: Sentinel `remove` (see
`RedisSentinelSessionStorage.get`). -/
def RedisSentinelSessionStorage.remove (pfx : String) (st : RedisState)
    (key : String) : RedisState :=
  { st with vals := updateF st.vals (pfx ++ key) none }

/-- Modelled from the spec: Sentinel `expire` (see
`RedisSentinelSessionStorage.get`). -/
def RedisSentinelSessionStorage.expire (pfx : String) (st : RedisState)
    (key : String) (secs : Int) : RedisState :=
  { st with ttls := updateF st.ttls (pfx ++ key) (some secs) }

/-! ## Framework adapters (`src/framework/axum.rs`, `actix.rs`, `salvo.rs`) -/

/-- One store operation issued by an adapter at response time (the key is the
raw session id; prefixing happens inside the backend). -/
inductive StoreOp where
  | set (key : String) (data : List (String × String))
  | remove (key : String)
  | expire (key : String) (ttl : Int)
deriving DecidableEq, Repr

/-- Load step of the axum middleware (`axum.rs` lines 64-75): no cookie or a
failed `store.get` yields `SessionInner::new(builder.rand_key.generate())`
(the generated id passed in as `fresh`); a successful get is used as-is.
The whole outcome of `store.get` is an input, so any backend failure
(connection or nil reply) is the `Except.error` case. -/
def axumLoad (cookie : Option String) (storeRes : Except String SessionInner)
    (fresh : String) : SessionInner :=
  match cookie with
  | some _ =>
      match storeRes with
      | Except.ok inner => inner
      | Except.error _ => SessionInner.new fresh
  | none => SessionInner.new fresh

/-- Load step of the actix middleware (`actix.rs` lines 107-121): on a failed
get the presented cookie value itself seeds the fresh record
(`SessionInner::new(session_key)`); with no cookie a generated id is used.
(On a successful get the middleware also issues a fire-and-forget
`store.remove(session_key)`, not modelled here.) -/
def actixLoad (cookie : Option String) (storeRes : Except String SessionInner)
    (fresh : String) : SessionInner :=
  match cookie with
  | some k =>
      match storeRes with
      | Except.ok inner => inner
      | Except.error _ => SessionInner.new k
  | none => SessionInner.new fresh

/-- Load step of the salvo middleware (`salvo.rs` lines 65-74): a failed get
falls back to `SessionInner::new(session_id)` reusing the presented value;
with no cookie `SessionInner::default()` is used (uuid passed as `uuid`). -/
def salvoLoad (cookie : Option String) (storeRes : Except String SessionInner)
    (uuid : String) : SessionInner :=
  match cookie with
  | some k =>
      match storeRes with
      | Except.ok inner => inner
      | Except.error _ => SessionInner.new k
  | none => SessionInner.default uuid

/-- Response-phase store operations of the axum middleware (`axum.rs` lines
87-117), keyed on the final status: `UnChange` issues the auto-expire TTL
refresh and then always `set`; `Change` issues remove, set, expire in that
order; `Clear` and `Destroy` issue remove; `Expire` issues expire. -/
def axumFinalize (b : SessionBuilder) (inner : SessionInner) : List StoreOp :=
  match inner.status with
  | SessionStatus.UnChange =>
      (if b.auto_expire then [StoreOp.expire inner.id b.expire_time] else [])
        ++ [StoreOp.set inner.id inner.data]
  | SessionStatus.Change =>
      [StoreOp.remove inner.id, StoreOp.set inner.id inner.data,
       StoreOp.expire inner.id b.expire_time]
  | SessionStatus.Clear => [StoreOp.remove inner.id]
  | SessionStatus.Destroy => [StoreOp.remove inner.id]
  | SessionStatus.Expire => [StoreOp.expire inner.id b.expire_time]

/-- Response-phase store operations of the actix middleware (`actix.rs` lines
130-159): as axum, except that in the `UnChange` branch `set` comes first and
the auto-expire refresh second. -/
def actixFinalize (b : SessionBuilder) (inner : SessionInner) : List StoreOp :=
  match inner.status with
  | SessionStatus.UnChange =>
      [StoreOp.set inner.id inner.data]
        ++ (if b.auto_expire then [StoreOp.expire inner.id b.expire_time]
            else [])
  | SessionStatus.Change =>
      [StoreOp.remove inner.id, StoreOp.set inner.id inner.data,
       StoreOp.expire inner.id b.expire_time]
  | SessionStatus.Clear => [StoreOp.remove inner.id]
  | SessionStatus.Destroy => [StoreOp.remove inner.id]
  | SessionStatus.Expire => [StoreOp.expire inner.id b.expire_time]

/-- Response-phase store operations of the salvo middleware (`salvo.rs` lines
79-109), a verbatim repetition of the axum branch bodies. -/
def salvoFinalize (b : SessionBuilder) (inner : SessionInner) : List StoreOp :=
  match inner.status with
  | SessionStatus.UnChange =>
      (if b.auto_expire then [StoreOp.expire inner.id b.expire_time] else [])
        ++ [StoreOp.set inner.id inner.data]
  | SessionStatus.Change =>
      [StoreOp.remove inner.id, StoreOp.set inner.id inner.data,
       StoreOp.expire inner.id b.expire_time]
  | SessionStatus.Clear => [StoreOp.remove inner.id]
  | SessionStatus.Destroy => [StoreOp.remove inner.id]
  | SessionStatus.Expire => [StoreOp.expire inner.id b.expire_time]

/-- Sequential execution of the branch's store calls: each call is awaited,
its `Result` is discarded by `.ok()`, and execution continues with the next
call unconditionally.  `outcome` tells whether a given call succeeds; the
trace pairs each attempted operation with its outcome. -/
def runStoreOps (outcome : StoreOp → Bool) : List StoreOp →
    List (StoreOp × Bool)
  | [] => []
  | op :: rest => (op, outcome op) :: runStoreOps outcome rest

/-- Header-list membership. -/
def hasHeader (hs : List (String × String)) (name : String) : Bool :=
  hs.any fun p => p.1 = name

/-- Response phase of the axum middleware (`axum.rs` lines 81-118): since the
service error type is `Infallible` the handler response `res` is always
`Ok`; the Set-Cookie header is inserted whenever the `HeaderValue`
conversion of `cookie.to_string()` succeeded (`hv`), then the branch's store
operations run with every failure discarded.  Returns the final headers and
the operation trace. -/
def axumRespond (b : SessionBuilder) (inner : SessionInner)
    (res : List (String × String)) (hv : Option String)
    (outcome : StoreOp → Bool) :
    List (String × String) × List (StoreOp × Bool) :=
  let headers :=
    match hv with
    | some v => ("set-cookie", v) :: res
    | none => res
  (headers, runStoreOps outcome (axumFinalize b inner))

/-- Response phase of the salvo middleware (`salvo.rs` lines 79-113): the
store operations run first and the Set-Cookie header is inserted afterwards,
unconditionally on the handler's outcome. -/
def salvoRespond (b : SessionBuilder) (inner : SessionInner)
    (res : List (String × String)) (hv : Option String)
    (outcome : StoreOp → Bool) :
    List (String × String) × List (StoreOp × Bool) :=
  let headers :=
    match hv with
    | some v => ("set-cookie", v) :: res
    | none => res
  (headers, runStoreOps outcome (salvoFinalize b inner))

/-- Load step of the axum middleware composed with the redis backend. -/
def axumLoadRedis (pfx : String) (vals : String → Option String)
    (cookie : Option String) (fresh freshNew : String)
    (parse : String → Option (List (String × String))) : SessionInner :=
  match cookie with
  | some k =>
      match RedisSessionStorage.get pfx vals fresh k parse with
      | Except.ok inner => inner
      | Except.error _ => SessionInner.new freshNew
  | none => SessionInner.new freshNew

/-- One whole request through the axum middleware over the redis backend:
load, run the handler's API calls, and compute the finalize operations and
the response cookie (`builder.build(inner.id)`). -/
def axumHandle (pfx : String) (vals : String → Option String)
    (cookie : Option String) (fresh freshNew : String)
    (parse : String → Option (List (String × String))) (b : SessionBuilder)
    (hops : List ApiOp) (now : Int) : List StoreOp × Cookie :=
  let final := applyApi (axumLoadRedis pfx vals cookie fresh freshNew parse)
    hops
  (axumFinalize b final, SessionBuilder.build b final.id now)

/-! ### Concrete inputs for counterexamples and witnesses -/

/-- A keyspace holding one record under the raw key "X". -/
def cexVals : String → Option String :=
  fun j => if j = "X" then some "raw" else none

/-- A parse function standing for `serde_json::from_str` on that record. -/
def cexParse : String → Option (List (String × String)) :=
  fun _ => some [("count", "1")]

/-- An `UnChange` record as left by a read-only request. -/
def cexUnchanged : SessionInner :=
  { id := "sid", data := [("k", "v")], status := SessionStatus.UnChange }

/-- Two keyspaces that agree on the key "pk" and nowhere else. -/
def cexValsA : String → Option String :=
  fun j => if j = "pk" then some "r" else none

/-- See `cexValsA`. -/
def cexValsB : String → Option String :=
  fun j => if j = "pk" then some "r" else some "z"

/-- A concrete backend state for the witnesses. -/
def cexSt : RedisState := { vals := cexValsA, ttls := fun _ => none }

/-- A serializer that always succeeds. -/
def cexSer : List (String × String) → Option String := fun _ => some "out"

/-- The state `cexSt` after a redis `set` of `cexUnchanged` under "k"
with prefix "p". -/
def cexStSet : RedisState :=
  { cexSt with vals := updateF cexSt.vals ("p" ++ "k") (some "out") }

/-! ## Helper lemmas -/

theorem floatRem_self (x m : ℚ) (h0 : 0 ≤ x) (hm : x < m) :
    floatRem x m = x := by
  have hmpos : 0 < m := lt_of_le_of_lt h0 hm
  have hq0 : 0 ≤ x / m := div_nonneg h0 hmpos.le
  have hq1 : x / m < 1 := (div_lt_one hmpos).mpr hm
  have htr : ratTrunc (x / m) = 0 := by
    unfold ratTrunc
    rw [if_neg (not_lt.mpr hq0)]
    exact Int.floor_eq_zero_iff.mpr ⟨hq0, hq1⟩
  unfold floatRem
  rw [htr]
  push_cast
  ring

/-- On the `Random(len)` strategy the generated string is the float rendering
of the raw sample itself: the sample lies in `[0,1)` while the modulus
`10 * len` is at least 1, so the `%` leaves the sample unchanged and the
configured length never influences the output. -/
theorem randomGenerate_ignores_len (r : ℚ) (h0 : 0 ≤ r) (h1 : r < 1)
    (len : Nat) (hlen : 1 ≤ len) (u4 u7 : String) (digest : String → String)
    (fls : ℚ → String) :
    RandKey.generate (RandKey.Random len) r u4 u7 digest fls = fls r := by
  have hgen : RandKey.generate (RandKey.Random len) r u4 u7 digest fls
      = fls (floatRem r ((10 * len : ℕ) : ℚ)) := rfl
  rw [hgen]
  congr 1
  apply floatRem_self r _ h0
  have hl : (1 : ℚ) ≤ (len : ℚ) := by exact_mod_cast hlen
  calc r < 1 := h1
    _ ≤ (len : ℚ) := hl
    _ ≤ ((10 * len : ℕ) : ℚ) := by push_cast; linarith

theorem lookupKV_insertKV (m : List (String × String)) (k v : String) :
    lookupKV (insertKV m k v) k = some v := by
  induction m with
  | nil => simp [insertKV, lookupKV]
  | cons hd tl ih =>
      obtain ⟨k', v'⟩ := hd
      by_cases h : k' = k
      · simp [insertKV, lookupKV, h]
      · simp [insertKV, lookupKV, h, ih]

theorem stepApi_id (s : SessionInner) (op : ApiOp) :
    (stepApi s op).id = s.id := by
  cases op with
  | get key => rfl
  | set key ser =>
      cases ser with
      | some str => rfl
      | none => rfl
  | remove key => rfl
  | clear => rfl
  | len => rfl

theorem applyApi_id (ops : List ApiOp) :
    ∀ s : SessionInner, (applyApi s ops).id = s.id := by
  induction ops with
  | nil => intro s; rfl
  | cons op rest ih =>
      intro s
      have h1 : applyApi s (op :: rest) = applyApi (stepApi s op) rest := rfl
      rw [h1, ih (stepApi s op), stepApi_id]

theorem stepApi_status_not_destroy (s : SessionInner) (op : ApiOp)
    (h : s.status ≠ SessionStatus.Destroy) :
    (stepApi s op).status ≠ SessionStatus.Destroy := by
  cases op with
  | get key => exact h
  | set key ser =>
      cases ser with
      | some str => simp [stepApi, SessionInner.set]
      | none => simpa [stepApi, SessionInner.set] using h
  | remove key => simp [stepApi, SessionInner.remove]
  | clear => simp [stepApi, SessionInner.clear]
  | len => exact h

/-! ## Claim theorems (first group) -/

/-- C7: in one session record, storing a value under a key and reading the
key back through the public API returns the stored value, whenever the
serde codec round-trips on that value (`ser v = some str`, `de str = some v`). -/
theorem c7_set_get_roundtrip {α : Type} (s : SessionInner) (k : String)
    (v : α) (ser : α → Option String) (de : String → Option α) (str : String)
    (hser : ser v = some str) (hde : de str = some v) :
    Session.get (Session.set s k v ser).2 k de = Except.ok v := by
  unfold Session.set SessionInner.set
  rw [hser]
  unfold Session.get SessionInner.get
  simp [lookupKV_insertKV, hde]

/-- Concrete run of `c7_set_get_roundtrip`: storing 42 under "count" with a
codec that round-trips on 42, then reading it back, yields 42. -/
theorem c7_set_get_roundtrip_witness :
    ((fun _ : Nat => some "v42") 42 = some "v42") ∧
    ((fun s => if s = "v42" then some 42 else none) "v42" = some 42) ∧
    Session.get (Session.set (SessionInner.new "x") "count" 42
        (fun _ : Nat => some "v42")).2 "count"
        (fun s => if s = "v42" then some 42 else none) = Except.ok 42 :=
  ⟨rfl, by decide,
   c7_set_get_roundtrip (SessionInner.new "x") "count" 42
     (fun _ : Nat => some "v42") (fun s => if s = "v42" then some 42 else none)
     "v42" rfl (by decide)⟩

/-- C10: the public session API (`get`/`set`/`remove`/`clear`/`len`) never
moves a record's status to `Destroy`; starting from any record that is not
`Destroy` (every freshly loaded or created record), no sequence of API calls
reaches the `Destroy` finalize branch. -/
theorem c10_no_destroy_via_api (s : SessionInner) (ops : List ApiOp)
    (h : s.status ≠ SessionStatus.Destroy) :
    (applyApi s ops).status ≠ SessionStatus.Destroy := by
  induction ops generalizing s with
  | nil => exact h
  | cons op rest ih =>
      have h1 : applyApi s (op :: rest) = applyApi (stepApi s op) rest := rfl
      rw [h1]
      exact ih (stepApi s op) (stepApi_status_not_destroy s op h)

/-- Concrete run of `c10_no_destroy_via_api` on a freshly created record. -/
theorem c10_no_destroy_via_api_witness :
    (SessionInner.new "x").status ≠ SessionStatus.Destroy ∧
    (applyApi (SessionInner.new "x")
        [ApiOp.set "a" (some "1"), ApiOp.clear, ApiOp.get "a",
         ApiOp.remove "a", ApiOp.len]).status ≠ SessionStatus.Destroy :=
  ⟨by decide,
   c10_no_destroy_via_api (SessionInner.new "x")
     [ApiOp.set "a" (some "1"), ApiOp.clear, ApiOp.get "a",
      ApiOp.remove "a", ApiOp.len] (by decide)⟩

theorem axumFinalize_change (b : SessionBuilder) (s : SessionInner)
    (h : s.status = SessionStatus.Change) :
    axumFinalize b s = [StoreOp.remove s.id, StoreOp.set s.id s.data,
      StoreOp.expire s.id b.expire_time] := by
  unfold axumFinalize
  rw [h]

theorem redisGet_hit (pfx : String) (vals : String → Option String)
    (fresh key raw : String)
    (parse : String → Option (List (String × String)))
    (h : vals (pfx ++ key) = some raw) :
    RedisSessionStorage.get pfx vals fresh key parse
      = Except.ok { id := fresh, data := (parse raw).getD [],
                    status := SessionStatus.Change } := by
  unfold RedisSessionStorage.get
  rw [h]
  rfl

theorem runStoreOps_fst (outcome : StoreOp → Bool) (ops : List StoreOp) :
    (runStoreOps outcome ops).map Prod.fst = ops := by
  induction ops with
  | nil => rfl
  | cons op rest ih => simp [runStoreOps, ih]

/-- C1: evaluated on a read-only request's record (status `UnChange`,
auto-expire enabled): all three adapters issue a `set(id, data)` in addition
to the TTL refresh, so the record's value is rewritten to the store — the
claimed expire-only behavior does not hold. -/
theorem c1_unchanged_branch_issues_set :
    axumFinalize SessionBuilder.default cexUnchanged
      = [StoreOp.expire "sid" 604800, StoreOp.set "sid" [("k", "v")]] ∧
    actixFinalize SessionBuilder.default cexUnchanged
      = [StoreOp.set "sid" [("k", "v")], StoreOp.expire "sid" 604800] ∧
    salvoFinalize SessionBuilder.default cexUnchanged
      = [StoreOp.expire "sid" 604800, StoreOp.set "sid" [("k", "v")]] ∧
    (axumFinalize SessionBuilder.default cexUnchanged).any
      (fun op => match op with
        | StoreOp.set _ _ => true
        | _ => false) = true :=
  ⟨rfl, rfl, rfl, rfl⟩

/-- C2 counterexample: the id "X" is present in the store, yet load returns
a record with status `Change` (not `UnChange`) and a freshly generated id
"G" (not "X"); only the data map survives. -/
theorem c2_load_hit_counterexample :
    RedisSessionStorage.get "" cexVals "G" "X" cexParse
      = Except.ok { id := "G", data := [("count", "1")],
                    status := SessionStatus.Change } ∧
    SessionStatus.Change ≠ SessionStatus.UnChange ∧ "G" ≠ "X" :=
  ⟨rfl, by decide, by decide⟩

/-- C2 amended: when the presented id is found in the store, load returns a
record whose data is the stored (parsed) map, but whose id is the id freshly
generated by the storage's id strategy and whose status is `Change`. -/
theorem c2_load_hit_amended (pfx : String) (vals : String → Option String)
    (fresh key raw : String)
    (parse : String → Option (List (String × String)))
    (h : vals (pfx ++ key) = some raw) :
    RedisSessionStorage.get pfx vals fresh key parse
      = Except.ok { id := fresh, data := (parse raw).getD [],
                    status := SessionStatus.Change } :=
  redisGet_hit pfx vals fresh key raw parse h

/-- Concrete run of `c2_load_hit_amended` on a store hit. -/
theorem c2_load_hit_amended_witness :
    cexVals ("" ++ "X") = some "raw" ∧
    RedisSessionStorage.get "" cexVals "G2" "X" cexParse
      = Except.ok { id := "G2", data := [("count", "1")],
                    status := SessionStatus.Change } :=
  ⟨by decide, c2_load_hit_amended "" cexVals "G2" "X" "raw" cexParse (by decide)⟩

/-- C3 counterexample: the store holds the presented id "X", the handler
mutates the session, yet the response cookie carries the rotated id "G" and
the finalize operations do not target "X". -/
theorem c3_mutate_existing_counterexample :
    (axumHandle "" cexVals (some "X") "G" "H" cexParse SessionBuilder.default
        [ApiOp.set "count" (some "2")] 0).2.value = "G" ∧
    (axumHandle "" cexVals (some "X") "G" "H" cexParse SessionBuilder.default
        [ApiOp.set "count" (some "2")] 0).2.value ≠ "X" ∧
    (axumHandle "" cexVals (some "X") "G" "H" cexParse SessionBuilder.default
        [ApiOp.set "count" (some "2")] 0).1
      ≠ [StoreOp.remove "X", StoreOp.set "X" [("count", "2")],
         StoreOp.expire "X" 604800] :=
  ⟨rfl, by decide, by decide⟩

/-- C3 amended: on a request presenting an id found in the store whose
handler leaves the record with status `Change`, finalize issues exactly
`remove(Y)`, `set(Y, data)`, `expire(Y, configuredTTL)` in that order and the
response cookie carries `Y` — where `Y` is the id freshly minted by the
storage `get` during load, in general different from the presented id. -/
theorem c3_mutate_existing_amended (pfx : String)
    (vals : String → Option String) (X raw fresh freshNew : String)
    (parse : String → Option (List (String × String))) (b : SessionBuilder)
    (hops : List ApiOp) (now : Int)
    (hhit : vals (pfx ++ X) = some raw)
    (hchange : (applyApi (axumLoadRedis pfx vals (some X) fresh freshNew parse)
        hops).status = SessionStatus.Change) :
    (axumHandle pfx vals (some X) fresh freshNew parse b hops now).1
      = [StoreOp.remove fresh,
         StoreOp.set fresh (applyApi
           (axumLoadRedis pfx vals (some X) fresh freshNew parse) hops).data,
         StoreOp.expire fresh b.expire_time] ∧
    (axumHandle pfx vals (some X) fresh freshNew parse b hops now).2.value
      = fresh := by
  have hload : axumLoadRedis pfx vals (some X) fresh freshNew parse
      = { id := fresh, data := (parse raw).getD [],
          status := SessionStatus.Change } := by
    have h0 : axumLoadRedis pfx vals (some X) fresh freshNew parse
        = match RedisSessionStorage.get pfx vals fresh X parse with
          | Except.ok inner => inner
          | Except.error _ => SessionInner.new freshNew := rfl
    rw [h0, redisGet_hit pfx vals fresh X raw parse hhit]
  have hid : (applyApi (axumLoadRedis pfx vals (some X) fresh freshNew parse)
      hops).id = fresh := by
    rw [applyApi_id, hload]
  constructor
  · have h1 : (axumHandle pfx vals (some X) fresh freshNew parse b hops now).1
        = axumFinalize b (applyApi
            (axumLoadRedis pfx vals (some X) fresh freshNew parse) hops) := rfl
    rw [h1, axumFinalize_change b _ hchange, hid]
  · have h2 : (axumHandle pfx vals (some X) fresh freshNew parse b hops now).2
        = SessionBuilder.build b (applyApi
            (axumLoadRedis pfx vals (some X) fresh freshNew parse) hops).id
            now := rfl
    rw [h2, hid]
    rfl

/-- Concrete run of `c3_mutate_existing_amended`: the rotated id "G" is the
target of all three operations and the cookie value. -/
theorem c3_mutate_existing_amended_witness :
    cexVals ("" ++ "X") = some "raw" ∧
    (applyApi (axumLoadRedis "" cexVals (some "X") "G" "H" cexParse)
        [ApiOp.set "count" (some "2")]).status = SessionStatus.Change ∧
    (axumHandle "" cexVals (some "X") "G" "H" cexParse SessionBuilder.default
        [ApiOp.set "count" (some "2")] 0).1
      = [StoreOp.remove "G",
         StoreOp.set "G" (applyApi
           (axumLoadRedis "" cexVals (some "X") "G" "H" cexParse)
           [ApiOp.set "count" (some "2")]).data,
         StoreOp.expire "G" 604800] ∧
    (axumHandle "" cexVals (some "X") "G" "H" cexParse SessionBuilder.default
        [ApiOp.set "count" (some "2")] 0).2.value = "G" :=
  ⟨by decide, by decide,
   (c3_mutate_existing_amended "" cexVals "X" "raw" "G" "H" cexParse
      SessionBuilder.default [ApiOp.set "count" (some "2")] 0 (by decide)
      (by decide)).1,
   (c3_mutate_existing_amended "" cexVals "X" "raw" "G" "H" cexParse
      SessionBuilder.default [ApiOp.set "count" (some "2")] 0 (by decide)
      (by decide)).2⟩

/-- C4: load is total in all three adapters — whatever the cookie and the
whole store outcome are, a record is always produced: the store result is
used on success, and every failure case (cookie absent, store miss or store
error, both of which are the `Except.error` outcome of the backend `get`)
degrades to a fresh empty record instead of surfacing the error. -/
theorem c4_load_never_fails (k fresh uuid e : String)
    (r : Except String SessionInner) (inner : SessionInner) :
    axumLoad none r fresh = SessionInner.new fresh ∧
    axumLoad (some k) (Except.error e) fresh = SessionInner.new fresh ∧
    axumLoad (some k) (Except.ok inner) fresh = inner ∧
    actixLoad none r fresh = SessionInner.new fresh ∧
    actixLoad (some k) (Except.error e) fresh = SessionInner.new k ∧
    actixLoad (some k) (Except.ok inner) fresh = inner ∧
    salvoLoad none r uuid = SessionInner.default uuid ∧
    salvoLoad (some k) (Except.error e) uuid = SessionInner.new k ∧
    salvoLoad (some k) (Except.ok inner) uuid = inner ∧
    (SessionInner.new fresh).data = [] ∧
    (SessionInner.default uuid).data = [] :=
  ⟨rfl, rfl, rfl, rfl, rfl, rfl, rfl, rfl, rfl, rfl, rfl⟩

/-- C5: at finalize time every store-call failure is discarded — the final
headers are identical under any two failure patterns, the attempted
operation trace is always the branch's full operation list (so an early
failure never suppresses the later operations), and the response still
carries the Set-Cookie header; for both the axum and the salvo adapters. -/
theorem c5_finalize_failures_discarded (b : SessionBuilder)
    (inner : SessionInner) (res : List (String × String)) (hv : Option String)
    (o o' : StoreOp → Bool) (v : String) :
    ((axumRespond b inner res hv o).1 = (axumRespond b inner res hv o').1) ∧
    ((axumRespond b inner res hv o).2.map Prod.fst = axumFinalize b inner) ∧
    (hv = some v →
      hasHeader (axumRespond b inner res hv o).1 "set-cookie" = true) ∧
    ((salvoRespond b inner res hv o).1 = (salvoRespond b inner res hv o').1) ∧
    ((salvoRespond b inner res hv o).2.map Prod.fst
      = salvoFinalize b inner) ∧
    (hv = some v →
      hasHeader (salvoRespond b inner res hv o).1 "set-cookie" = true) := by
  refine ⟨rfl, runStoreOps_fst o (axumFinalize b inner), ?_, rfl,
    runStoreOps_fst o (salvoFinalize b inner), ?_⟩
  · intro h
    subst h
    simp [axumRespond, hasHeader]
  · intro h
    subst h
    simp [salvoRespond, hasHeader]

/-- Concrete run of `c5_finalize_failures_discarded`: with every store call
failing, the axum response still carries the cookie header and the full
`UnChange` operation list was attempted. -/
theorem c5_finalize_failures_discarded_witness :
    hasHeader (axumRespond SessionBuilder.default cexUnchanged [] (some "c")
        (fun _ => false)).1 "set-cookie" = true ∧
    (axumRespond SessionBuilder.default cexUnchanged [] (some "c")
        (fun _ => false)).2.map Prod.fst
      = axumFinalize SessionBuilder.default cexUnchanged :=
  ⟨(c5_finalize_failures_discarded SessionBuilder.default cexUnchanged []
      (some "c") (fun _ => false) (fun _ => true) "c").2.2.1 rfl,
   (c5_finalize_failures_discarded SessionBuilder.default cexUnchanged []
      (some "c") (fun _ => false) (fun _ => true) "c").2.1⟩

/-- C6: every backend sends the same prefixed key — the configured prefix
concatenated with the raw key — in all four per-key operations: `get`
consults only `pfx ++ key`, `set` rewrites exactly `pfx ++ key`, `remove`
deletes exactly `pfx ++ key`, `expire` touches only the TTL of
`pfx ++ key`; and the cluster and sentinel implementations coincide with the
single-node one on every input. -/
theorem c6_prefixed_keys (pfx key fresh : String)
    (parse : String → Option (List (String × String))) (st : RedisState)
    (value : SessionInner) (ser : List (String × String) → Option String)
    (secs : Int) (j : String) :
    (∀ vals vals' : String → Option String,
        vals (pfx ++ key) = vals' (pfx ++ key) →
        RedisSessionStorage.get pfx vals fresh key parse
          = RedisSessionStorage.get pfx vals' fresh key parse) ∧
    (∀ st' : RedisState,
        RedisSessionStorage.set pfx st key value ser = Except.ok st' →
        st'.vals j = if j = pfx ++ key then ser value.data else st.vals j) ∧
    ((RedisSessionStorage.remove pfx st key).vals j
        = if j = pfx ++ key then none else st.vals j) ∧
    ((RedisSessionStorage.expire pfx st key secs).ttls j
        = if j = pfx ++ key then some secs else st.ttls j) ∧
    (∀ vals : String → Option String,
        RedisClusterSessionStorage.get pfx vals fresh key parse
          = RedisSessionStorage.get pfx vals fresh key parse) ∧
    (RedisClusterSessionStorage.set pfx st key value ser
        = RedisSessionStorage.set pfx st key value ser) ∧
    (RedisClusterSessionStorage.remove pfx st key
        = RedisSessionStorage.remove pfx st key) ∧
    (RedisClusterSessionStorage.expire pfx st key secs
        = RedisSessionStorage.expire pfx st key secs) ∧
    (∀ vals : String → Option String,
        RedisSentinelSessionStorage.get pfx vals fresh key parse
          = RedisSessionStorage.get pfx vals fresh key parse) ∧
    (RedisSentinelSessionStorage.set pfx st key value ser
        = RedisSessionStorage.set pfx st key value ser) ∧
    (RedisSentinelSessionStorage.remove pfx st key
        = RedisSessionStorage.remove pfx st key) ∧
    (RedisSentinelSessionStorage.expire pfx st key secs
        = RedisSessionStorage.expire pfx st key secs) := by
  refine ⟨?_, ?_, ?_, ?_, fun vals => rfl, rfl, rfl, rfl, fun vals => rfl,
    rfl, rfl, rfl⟩
  · intro vals vals' h
    unfold RedisSessionStorage.get
    rw [h]
  · intro st' h
    unfold RedisSessionStorage.set at h
    revert h
    cases hser : ser value.data with
    | none => intro h; cases h
    | some raw =>
        intro h
        cases h
        simp [updateF, hser]
  · simp [RedisSessionStorage.remove, updateF]
  · simp [RedisSessionStorage.expire, updateF]

/-- Concrete run of `c6_prefixed_keys` with prefix "p" and key "k": reads,
writes, deletions and TTL refreshes all land on "pk". -/
theorem c6_prefixed_keys_witness :
    cexValsA ("p" ++ "k") = cexValsB ("p" ++ "k") ∧
    RedisSessionStorage.get "p" cexValsA "F" "k" cexParse
      = RedisSessionStorage.get "p" cexValsB "F" "k" cexParse ∧
    RedisSessionStorage.set "p" cexSt "k" cexUnchanged cexSer
      = Except.ok cexStSet ∧
    (cexStSet.vals "pk"
      = if "pk" = "p" ++ "k" then cexSer cexUnchanged.data
        else cexSt.vals "pk") ∧
    ((RedisSessionStorage.remove "p" cexSt "k").vals "pk"
      = if "pk" = "p" ++ "k" then none else cexSt.vals "pk") ∧
    ((RedisSessionStorage.expire "p" cexSt "k" 60).ttls "pk"
      = if "pk" = "p" ++ "k" then some 60 else cexSt.ttls "pk") :=
  ⟨by decide,
   (c6_prefixed_keys "p" "k" "F" cexParse cexSt cexUnchanged cexSer 60
      "pk").1 cexValsA cexValsB (by decide),
   rfl,
   (c6_prefixed_keys "p" "k" "F" cexParse cexSt cexUnchanged cexSer 60
      "pk").2.1 cexStSet rfl,
   (c6_prefixed_keys "p" "k" "F" cexParse cexSt cexUnchanged cexSer 60
      "pk").2.2.1,
   (c6_prefixed_keys "p" "k" "F" cexParse cexSt cexUnchanged cexSer 60
      "pk").2.2.2.1⟩

/-- C8 counterexample: the length 64 is neither under 64 nor over 1024, so
per the claim it should be accepted, yet `SessionBuilder::rand_key`
(`assert!(len > 64)`) rejects it. -/
theorem c8_boundary_counterexample :
    isOkE (SessionBuilder.with_rand_key SessionBuilder.default
      (RandKey.Random 64)) = false ∧ ¬(64 < 64) ∧ ¬(1024 < 64) := by
  refine ⟨?_, by decide, by decide⟩
  rfl

/-- C8 amended: a `Random`/`RandomSha256` length is accepted at configuration
time iff `64 < len < 1024` (so 64 and 1024 themselves are rejected); the uuid
strategies are always accepted; and `generate` performs no length validation
at request time. -/
theorem c8_rand_key_validation (b : SessionBuilder) (len : Nat) :
    (isOkE (SessionBuilder.with_rand_key b (RandKey.Random len)) = true ↔
      64 < len ∧ len < 1024) ∧
    (isOkE (SessionBuilder.with_rand_key b (RandKey.RandomSha256 len)) = true ↔
      64 < len ∧ len < 1024) ∧
    isOkE (SessionBuilder.with_rand_key b RandKey.UuidV4) = true ∧
    isOkE (SessionBuilder.with_rand_key b RandKey.UuidV7) = true := by
  refine ⟨?_, ?_, rfl, rfl⟩ <;>
  · by_cases h1 : 64 < len <;> by_cases h2 : len < 1024 <;>
      simp [SessionBuilder.with_rand_key, isOkE, h1, h2]

/-- C9: evaluated at the failing input, the fixed-length numeric generator
`RandKey::Random(len)` returns the float rendering of the raw `[0,1)` sample,
identical for lengths 100 and 999 — the configured length never shapes the
output, which is a 3-character float string such as "0.5", not a numeric
string of exactly `len` characters. -/
theorem c9_random_generate_ignores_len :
    RandKey.generate (RandKey.Random 100) ((1 : ℚ) / 2) "a" "b" id cexFls
      = "0.5" ∧
    RandKey.generate (RandKey.Random 999) ((1 : ℚ) / 2) "a" "b" id cexFls
      = "0.5" ∧
    ("0.5" : String).length ≠ 100 := by
  have hc : cexFls ((1 : ℚ) / 2) = "0.5" := by simp [cexFls]
  refine ⟨?_, ?_, by decide⟩
  · rw [randomGenerate_ignores_len ((1 : ℚ) / 2) (by norm_num) (by norm_num)
      100 (by norm_num) "a" "b" id cexFls, hc]
  · rw [randomGenerate_ignores_len ((1 : ℚ) / 2) (by norm_num) (by norm_num)
      999 (by norm_num) "a" "b" id cexFls, hc]

end Rsession
